import Mathlib

/-!
Verification development for the mu-mcp conversation-continuity subsystem.

Shallow embedding of the Python sources:
  * `models.py`   — model registry, allow-list filtering, name resolution;
  * `prompts.py`  — fixed wrapper strings;
  * `storage.py`  — `ConversationStorage` (save/load/list-recent, caching);
  * `chat_handler.py` — `ChatHandler.chat` (validation, history assembly,
    external call, persistence).

Python dicts of JSON-like data are embedded as association lists over a
`Val` type (insertion order preserved, as in CPython).  Environmental
effects (clock, uuid, the outbound HTTP call, file-I/O success) are passed
to the embedded functions as explicit parameters.  The Python reference
semantics of `list.append` on the message list shared between the handler
and the storage cache is made explicit (`mutateCachedMessages`).
-/

namespace MuMcp

/-- JSON-like values as handled by the Python code.  `Val.null` stands for
Python `None` (what `dict.get` yields on a missing key). -/
inductive Val where
  | null : Val
  | str (s : String) : Val
  | arr (items : List Val) : Val
  | obj (fields : List (String × Val)) : Val
deriving Repr

/-- A Python dict with string keys, in insertion order. -/
abbrev Dict := List (String × Val)

/-- Lookup `d[k]` / `d.get(k)` as an `Option` (first binding wins, as in a dict
where keys are unique; our operations keep keys unique). -/
def dictFind (d : List (String × α)) (k : String) : Option α :=
  (d.find? (fun p => p.1 == k)).map (fun p => p.2)

/-- Python `d.get(k)` with its `None` default. -/
def dictGetD (d : Dict) (k : String) : Val :=
  (dictFind d k).getD Val.null

/-- Membership `k in d`. -/
def hasKey (d : List (String × α)) (k : String) : Bool :=
  d.any (fun p => p.1 == k)

/-- Assignment `d[k] = v`: replace in place when the key exists (insertion order kept),
append otherwise — CPython dict-assignment semantics. -/
def dictInsert (d : List (String × α)) (k : String) (v : α) : List (String × α) :=
  if hasKey d k then d.map (fun p => if p.1 == k then (k, v) else p)
  else d ++ [(k, v)]

/-- Merge `{**a, **b}`. -/
def dictMerge (a b : List (String × α)) : List (String × α) :=
  b.foldl (fun acc p => dictInsert acc p.1 p.2) a

/-- Remove a key (used to model a cold cache). -/
def dictErase (d : List (String × α)) (k : String) : List (String × α) :=
  d.filter (fun p => p.1 != k)

/-- Python truthiness of a JSON-like value. -/
def valTruthy : Val → Bool
  | Val.null => false
  | Val.str s => !s.isEmpty
  | Val.arr items => !items.isEmpty
  | Val.obj fields => !fields.isEmpty

/-- Python truthiness of an `Optional[str]` (`None` and `""` are falsy). -/
def truthy : Option String → Bool
  | some s => !s.isEmpty
  | none => false

/-! ## models.py -/

/-- Model metadata for routing and selection (`models.py`). -/
structure ModelCapabilities where
  name : String
  description : String
deriving Repr

/-- The `OPENROUTER_MODELS` registry, in source order. -/
def OPENROUTER_MODELS : List (String × ModelCapabilities) := [
  ("gpt-5", ⟨"openai/gpt-5",
    "Most advanced OpenAI model with extended context. Excels at complex reasoning, coding, and multimodal understanding"⟩),
  ("gpt-5-mini", ⟨"openai/gpt-5-mini",
    "Efficient GPT-5 variant. Balances performance and cost for general-purpose tasks"⟩),
  ("gpt-4o", ⟨"openai/gpt-4o",
    "Multimodal model supporting text, image, audio, and video. Strong at creative writing and following complex instructions"⟩),
  ("o3", ⟨"openai/o3",
    "Advanced reasoning model with tool integration and visual reasoning. Excels at mathematical proofs and complex problem-solving"⟩),
  ("o3-mini", ⟨"openai/o3-mini",
    "Production-ready small reasoning model with function calling and structured outputs. Good for systematic problem-solving"⟩),
  ("o3-mini-high", ⟨"openai/o3-mini-high",
    "Enhanced O3 Mini with deeper reasoning, better accuracy vs standard O3 Mini"⟩),
  ("o4-mini", ⟨"openai/o4-mini",
    "Fast reasoning model optimized for speed. Exceptional at math, coding, and visual tasks with tool support"⟩),
  ("o4-mini-high", ⟨"openai/o4-mini-high",
    "Premium O4 Mini variant with enhanced reasoning depth and accuracy"⟩),
  ("sonnet", ⟨"anthropic/claude-sonnet-4",
    "Industry-leading coding model with superior instruction following. Excellent for software development and technical writing"⟩),
  ("opus", ⟨"anthropic/claude-opus-4.1",
    "Most capable Claude model for sustained complex work. Strongest at deep analysis and long-running tasks"⟩),
  ("haiku", ⟨"anthropic/claude-3.5-haiku",
    "Fast, efficient model matching previous flagship performance. Great for high-volume, quick-response scenarios"⟩),
  ("gemini-2.5-pro", ⟨"google/gemini-2.5-pro",
    "Massive context window with thinking mode. Best for analyzing huge datasets, codebases, and STEM reasoning"⟩),
  ("gemini-2.5-flash", ⟨"google/gemini-2.5-flash",
    "Best price-performance with thinking capabilities. Ideal for high-volume tasks with multimodal and multilingual support"⟩),
  ("deepseek-chat", ⟨"deepseek/deepseek-chat-v3.1",
    "Hybrid model switching between reasoning and direct modes. Strong multilingual support and code completion"⟩),
  ("deepseek-r1", ⟨"deepseek/deepseek-r1",
    "Open-source reasoning model with exceptional math capabilities. Highly cost-effective for complex reasoning tasks"⟩),
  ("grok-4", ⟨"x-ai/grok-4",
    "Multimodal model with strong reasoning and analysis capabilities. Excellent at complex problem-solving and scientific tasks"⟩),
  ("grok-code-fast-1", ⟨"x-ai/grok-code-fast-1",
    "Ultra-fast coding specialist optimized for IDE integration. Best for rapid code generation and bug fixes"⟩),
  ("qwen3-max", ⟨"qwen/qwen3-max",
    "Trillion-parameter model with ultra-long context. Excels at complex reasoning, structured data, and creative tasks"⟩)]

/-- Embedding of `get_allowed_models`: filter the registry by the
`OPENROUTER_ALLOWED_MODELS` environment value (`env`, `""` when unset). -/
def get_allowed_models (env : String) : List (String × ModelCapabilities) :=
  if env.isEmpty then OPENROUTER_MODELS
  else
    let allowed_names := (env.splitOn ",").map (fun n => n.trim.toLower)
    OPENROUTER_MODELS.filter (fun p =>
      allowed_names.contains p.1.toLower ||
      allowed_names.contains (((p.2.name.splitOn "/").getLastD "").toLower))

/-- Embedding of `resolve_model`: resolve a model name to the full OpenRouter path.
(Python's `"/" in name` is membership of the character `'/'`; it is
embedded over the string's character data.) -/
def resolve_model (env : String) (name : String) : Option String :=
  if name.isEmpty then none
  else
    let name_lower := name.toLower
    if name.data.contains '/' then some name
    else
      let models := get_allowed_models env
      match dictFind models name_lower with
      | some m => some m.name
      | none =>
        (models.find? (fun p => p.2.name.endsWith ("/" ++ name_lower))).map
          (fun p => p.2.name)

/-- Embedding of `get_short_name`: the registry key for a full model path, if any. -/
def get_short_name (env : String) (full_name : String) : Option String :=
  if full_name.isEmpty then none
  else
    ((get_allowed_models env).find? (fun p => p.2.name == full_name)).map
      (fun p => p.1)

/-! ## prompts.py -/

/-- Embedding of `get_llm_system_prompt` (the argument is ignored by the source). -/
def get_llm_system_prompt (_model_name : String) : String :=
  "Collaborate as a technical peer with Claude, the AI agent requesting assistance.\n\nCore principles:\n- Provide expert analysis and alternative perspectives\n- Challenge assumptions constructively when warranted\n- Share implementation details and edge cases\n- Acknowledge uncertainty rather than guessing\n\nWhen additional context would strengthen your response:\n- Request Claude perform web searches for current documentation\n- Ask Claude to provide specific files or code sections\n\nFormat code with proper syntax highlighting.\nMaintain technical precision over conversational comfort.\nSkip unnecessary preambles - dive directly into substance."

/-- Embedding of `get_request_wrapper`. -/
def get_request_wrapper : String :=
  "\n\n---\n\nREQUEST FROM CLAUDE: The following query comes from Claude, an AI assistant seeking peer collaboration."

/-- Embedding of `get_response_wrapper`. -/
def get_response_wrapper (model_name : String) : String :=
  "\n\n---\n\nPEER AI RESPONSE (" ++ (model_name.toUpper.replace "-" " ") ++
  "): Evaluate this perspective critically and integrate valuable insights."

/-! ## storage.py — data model

`save_conversation` always writes the keys `id`, `created`, `updated`,
`messages` and, conditionally, `title` and `model_metadata`; a parsed
conversation file is embedded as a structure over that schema.  `title`
is `none` exactly when the key is absent; `created` is a `Val` because
the source copies `existing.get("created")` verbatim (possibly `None`). -/
structure ConversationData where
  id : String
  created : Val
  updated : String
  messages : List Dict
  title : Option Val
  model_metadata : Option Dict
deriving Repr

/-- The mutable state of a `ConversationStorage` instance plus the on-disk
conversation directory: `files` maps a conversation id to the (parsed)
content of `<id>.json`, `cache` is the in-memory write-through cache. -/
structure Storage where
  files : List (String × ConversationData)
  cache : List (String × ConversationData)
  lastConversationId : Option String
  lastModelUsed : Option String
deriving Repr

/-- Truthiness of an `Optional[dict]` argument. -/
def dictOptTruthy : Option Dict → Bool
  | some d => !d.isEmpty
  | none => false

/-- The model-identifier extraction shared by `save_conversation`
(lines 88–99) and `list_recent_conversations` (lines 245–257): prefer the
last entry of `model_metadata["models_used"]`, else scan the messages in
reverse for an assistant message whose metadata carries `model`. -/
def extract_last_model (model_metadata : Option Dict) (messages : List Dict) :
    Option Val :=
  match model_metadata with
  | some mm =>
    if hasKey mm "models_used" then
      match dictGetD mm "models_used" with
      | Val.arr items => items.getLast?
      | _ => none
    else scanMessages messages
  | none => scanMessages messages
where
  /-- Loop `for msg in reversed(messages)`: first assistant message, from
  the end, whose `metadata` dict has a `model` key. -/
  scanMessages (messages : List Dict) : Option Val :=
    messages.reverse.findSome? (fun msg =>
      match dictGetD msg "role" with
      | Val.str r =>
        if r == "assistant" then
          match dictGetD msg "metadata" with
          | Val.obj m => dictFind m "model"
          | _ => none
        else none
      | _ => none)

/-- The short-display-name conversion applied to the extracted model
identifier (`if last_full_name: ... get_short_name(...)`); the identifier
recorded by this program is always a string. -/
def shortDisplayOf (env : String) : Option Val → Option String
  | some (Val.str s) =>
    if s.isEmpty then none else some ((get_short_name env s).getD s)
  | _ => none

/-- Embedding of `ConversationStorage.save_conversation`.  `now` stands for
`datetime.utcnow().isoformat()` and `diskOk` for the success of the file
I/O (the `try` block fails, returning `False` with the state unchanged,
exactly when the environment makes it fail). -/
def save_conversation (st : Storage) (conversation_id : String)
    (messages : List Dict) (model_metadata : Option Dict)
    (title : Option String) (now : String) (diskOk : Bool) (env : String) :
    Bool × Storage :=
  if !diskOk then (false, st)
  else
    let existingFile := dictFind st.files conversation_id
    let created : Val :=
      match existingFile with
      | some ex => ex.created
      | none => Val.str now
    let data : ConversationData :=
      { id := conversation_id
        created := created
        updated := now
        messages := messages
        title :=
          if truthy title then some (Val.str (title.getD ""))
          else match existingFile with
            | some ex => ex.title
            | none => none
        model_metadata :=
          if dictOptTruthy model_metadata then model_metadata else none }
    let last_full_name := extract_last_model model_metadata messages
    (true,
      { files := dictInsert st.files conversation_id data
        cache := dictInsert st.cache conversation_id data
        lastConversationId := some conversation_id
        lastModelUsed := shortDisplayOf env last_full_name })

/-- Embedding of `ConversationStorage.load_conversation`: cache first, then disk (a disk
hit populates the cache); `none` when not found. -/
def load_conversation (st : Storage) (conversation_id : String) :
    Option ConversationData × Storage :=
  match dictFind st.cache conversation_id with
  | some data => (some data, st)
  | none =>
    match dictFind st.files conversation_id with
    | none => (none, st)
    | some data =>
      (some data, { st with cache := dictInsert st.cache conversation_id data })

/-- Embedding of `ConversationStorage.get_messages_for_api`: project every message down
to its `role` and `content` entries. -/
def get_messages_for_api (messages : List Dict) : List Dict :=
  messages.map (fun msg =>
    [("role", dictGetD msg "role"), ("content", dictGetD msg "content")])

/-- Embedding of `ConversationStorage.add_metadata_to_message`
(`{**message, "metadata": {"timestamp": ..., **metadata}}`). -/
def add_metadata_to_message (message : Dict) (metadata : Dict)
    (timestamp : String) : Dict :=
  dictInsert message "metadata"
    (Val.obj (dictMerge [("timestamp", Val.str timestamp)] metadata))

/-! ## storage.py — `list_recent_conversations`

Python's `list.sort(key=k, reverse=True)` is a stable descending sort by
key; that is `List.insertionSort` with the relation
`fun a b => key b ≤ key a` (an element is inserted before the first
element whose key is ≤ its own, so earlier elements win ties). -/

/-- Stable descending sort by a key, as `list.sort(key, reverse=True)`. -/
def sortDescBy {α β : Type} [LinearOrder β] (key : α → β) (l : List α) :
    List α :=
  l.insertionSort (fun a b => key b ≤ key a)

/-- One entry of the summary list built by `list_recent_conversations`. -/
structure ConvSummary where
  id : String
  title : Val
  created : Val
  updated : String
  model_used : Option String
deriving Repr

/-- The summary extracted from one conversation file (storage.py 237–273),
placeholder title included. -/
def summarize (env : String) (data : ConversationData) : ConvSummary :=
  let model_used := shortDisplayOf env
    (extract_last_model data.model_metadata data.messages)
  let titleVal := (data.title).getD Val.null
  { id := data.id
    title := if valTruthy titleVal then titleVal
             else Val.str "[Untitled conversation]"
    created := data.created
    updated := data.updated
    model_used := model_used }

/-- Embedding of `ConversationStorage.list_recent_conversations`.  `dirFiles` is the
directory listing in glob order: each entry pairs a file's mtime with its
parsed content.  The source pre-filters the top `limit` files by mtime,
summarizes them, then re-sorts the summaries by the `updated` field. -/
def list_recent_conversations (env : String)
    (dirFiles : List (Nat × ConversationData)) (limit : Nat) :
    List ConvSummary :=
  let files_with_mtime := sortDescBy (fun p => p.1) dirFiles
  let recent_files := files_with_mtime.take limit
  let conversations := recent_files.map (fun p => summarize env p.2)
  sortDescBy (fun s => s.updated) conversations

/-- Modelled from the spec: "`list_recent(k)` returns exactly the k most
recent by `updated`, descending" — summaries of all persisted
conversations, stably sorted by `updated` descending, truncated to `k`. -/
def kMostRecentByUpdated (env : String)
    (dirFiles : List (Nat × ConversationData)) (limit : Nat) :
    List ConvSummary :=
  (sortDescBy (fun s => s.updated)
    (dirFiles.map (fun p => summarize env p.2))).take limit

/-! ## chat_handler.py — `ChatHandler.chat`

Environmental inputs of one `chat` call are bundled in `ChatEnv`: the
allow-list environment variable, the file/image-ingestion collaborator
(`build`, applied to the wrapped prompt; it is the identity-as-string
when no files or images are attached), the three `utcnow()` readings, the
freshly generated uuid, the outcome of the outbound OpenRouter call, and
whether the save's file I/O succeeds. -/
structure ChatEnv where
  env : String
  build : String → Val
  tsUser : String
  tsAsst : String
  newId : String
  callResult : Except String String
  saveNow : String
  diskOk : Bool

/-- The observable result of one `chat` call: the returned dict (an error
dict, a success dict, or a propagated exception from the external call),
the final storage state, the single outbound API call made (payload and
model), if any, and the value returned by `save_conversation`, if it was
reached. -/
inductive ChatOutcome where
  | errorResult (error : String) (continuation_id : Option String)
      (model_used : Option String) : ChatOutcome
  | success (content : String) (continuation_id : String)
      (model_used : String) : ChatOutcome
  | callFailed (e : String) : ChatOutcome
deriving Repr

structure ChatStep where
  outcome : ChatOutcome
  state : Storage
  apiCall : Option (List Dict × String)
  saveResult : Option Bool
deriving Repr

/-- In the source, `messages_with_metadata` on a continuation is the very
list object stored in the cache entry (`load_conversation` returns the
cached dict itself), so `messages_with_metadata.append(...)` mutates the
cached conversation record in place.  This makes that mutation explicit. -/
def mutateCachedMessages (st : Storage) (cid : String) (msgs : List Dict) :
    Storage :=
  { st with cache := st.cache.map (fun p =>
      if p.1 == cid then (p.1, { p.2 with messages := msgs }) else p) }

/-- The body of `ChatHandler.chat` after conversation identity is settled
(chat_handler.py 107–156): build and tag the user message, strip metadata,
prepend the system prompt, call the model, tag the assistant message,
save, and wrap the response. -/
def chatTurn (st : Storage) (cid : String) (isCont : Bool)
    (messages0 : List Dict) (resolved_model prompt : String)
    (title : Option String) (E : ChatEnv) : ChatStep :=
  let wrapped_prompt := prompt ++ get_request_wrapper
  let user_content := E.build wrapped_prompt
  let user_message := add_metadata_to_message
    [("role", Val.str "user"), ("content", user_content)]
    [("target_model", Val.str resolved_model)] E.tsUser
  let messages1 := messages0 ++ [user_message]
  let st1 := if isCont then mutateCachedMessages st cid messages1 else st
  let api_messages := get_messages_for_api messages1
  let api_messages2 :=
    [("role", Val.str "system"),
     ("content", Val.str (get_llm_system_prompt resolved_model))] :: api_messages
  match E.callResult with
  | Except.error e =>
    { outcome := ChatOutcome.callFailed e
      state := st1
      apiCall := some (api_messages2, resolved_model)
      saveResult := none }
  | Except.ok response_text =>
    let assistant_message := add_metadata_to_message
      [("role", Val.str "assistant"), ("content", Val.str response_text)]
      [("model", Val.str resolved_model), ("model_used", Val.str resolved_model)]
      E.tsAsst
    let messages2 := messages1 ++ [assistant_message]
    let st2 := if isCont then mutateCachedMessages st1 cid messages2 else st1
    let sres := save_conversation st2 cid messages2
      (some [("models_used", Val.arr [Val.str resolved_model])])
      title E.saveNow E.diskOk E.env
    let short_name := get_short_name E.env resolved_model
    let display_name := short_name.getD resolved_model
    let wrapped_response := response_text ++ get_response_wrapper display_name
    { outcome := ChatOutcome.success wrapped_response cid display_name
      state := sres.2
      apiCall := some (api_messages2, resolved_model)
      saveResult := some sres.1 }

/-- Embedding of `ChatHandler.chat` (chat_handler.py 41–156). -/
def chat (st : Storage) (prompt model : String)
    (title continuation_id : Option String) (E : ChatEnv) : ChatStep :=
  let resolved_model := (resolve_model E.env model).getD model
  if truthy title && truthy continuation_id then
    { outcome := ChatOutcome.errorResult
        "Cannot provide both 'title' and 'continuation_id'. Use 'title' for new conversations or 'continuation_id' to continue existing ones."
        none none
      state := st, apiCall := none, saveResult := none }
  else if !truthy title && !truthy continuation_id then
    { outcome := ChatOutcome.errorResult
        "Must provide either 'title' for a new conversation or 'continuation_id' to continue an existing one."
        none none
      state := st, apiCall := none, saveResult := none }
  else if truthy continuation_id then
    let cid := continuation_id.getD ""
    match load_conversation st cid with
    | (some conversation_data, st1) =>
      chatTurn st1 cid true conversation_data.messages resolved_model prompt
        title E
    | (none, st1) =>
      { outcome := ChatOutcome.errorResult
          ("Conversation " ++ cid ++
           " not found. Please start a new conversation or use a valid continuation_id.")
          none none
        state := st1, apiCall := none, saveResult := none }
  else
    chatTurn st E.newId false [] resolved_model prompt title E

/-- The message payload of the outbound API call, `[]` when no call was
made. -/
def apiPayload (r : ChatStep) : List Dict :=
  match r.apiCall with
  | some (p, _) => p
  | none => []

/-! ## Association-list lemmas -/

theorem dictFind_map_update {α : Type} (k : String) (v : α) :
    ∀ d : List (String × α), hasKey d k = true →
      dictFind (d.map (fun p => if p.1 == k then (k, v) else p)) k = some v := by
  intro d
  induction d with
  | nil => intro h; simp [hasKey] at h
  | cons p d ih =>
    intro h
    by_cases hp : (p.1 == k) = true
    · simp [dictFind, List.find?, hp]
    · have hd : hasKey d k = true := by
        rcases List.any_eq_true.mp h with ⟨x, hx, hpx⟩
        rcases List.mem_cons.mp hx with rfl | hx
        · exact absurd hpx hp
        · exact List.any_eq_true.mpr ⟨x, hx, hpx⟩
      have ih' := ih hd
      simp only [List.map_cons]
      rw [if_neg hp]
      simpa [dictFind, List.find?, hp] using ih'

theorem dictFind_dictInsert_self {α : Type} (d : List (String × α))
    (k : String) (v : α) : dictFind (dictInsert d k v) k = some v := by
  unfold dictInsert
  cases hk : hasKey d k with
  | true => simpa using dictFind_map_update k v d hk
  | false =>
    have hfind : List.find? (fun p => p.1 == k) d = none := by
      rw [List.find?_eq_none]
      intro x hx hpx
      have : hasKey d k = true := List.any_eq_true.mpr ⟨x, hx, hpx⟩
      rw [hk] at this
      exact Bool.false_ne_true this
    simp [dictFind, List.find?_append, hfind, List.find?]

theorem dictFind_dictErase_self {α : Type} (d : List (String × α))
    (k : String) : dictFind (dictErase d k) k = none := by
  unfold dictFind dictErase
  have hfind : List.find? (fun p => p.1 == k)
      (List.filter (fun p => p.1 != k) d) = none := by
    rw [List.find?_eq_none]
    intro x hx hpx
    have hmem := List.of_mem_filter hx
    rw [bne, hpx] at hmem
    exact Bool.false_ne_true hmem
  simp [hfind]

theorem truthy_none : truthy none = false := rfl

/-! ## Claim theorems -/

/-- Convenient concrete values for witnesses. -/
def emptyStorage : Storage := ⟨[], [], none, none⟩

def sampleEnv : ChatEnv :=
  ⟨"", fun s => Val.str s, "t1", "t2", "id-1", Except.ok "resp", "t3", true⟩

/-- C1: supplying both `title` and `continuation_id`, or neither, makes
`chat` return a structured error result of the common shape — an error
message with `continuation_id = None` and `model_used = None` — with the
storage state unchanged (no conversation file created or modified) and no
external model call made. -/
theorem chat_validation_error (st : Storage) (prompt model : String)
    (title continuation_id : Option String) (E : ChatEnv)
    (h : (truthy title && truthy continuation_id) = true ∨
         (truthy title = false ∧ truthy continuation_id = false)) :
    ∃ msg, chat st prompt model title continuation_id E =
      { outcome := ChatOutcome.errorResult msg none none
        state := st, apiCall := none, saveResult := none } := by
  rcases h with h | ⟨h1, h2⟩
  · exact ⟨"Cannot provide both 'title' and 'continuation_id'. Use 'title' for new conversations or 'continuation_id' to continue existing ones.",
      by simp [chat, h]⟩
  · exact ⟨"Must provide either 'title' for a new conversation or 'continuation_id' to continue an existing one.",
      by simp [chat, h1, h2]⟩

theorem chat_validation_error_witness :
    ((truthy (some "T") && truthy (some "c")) = true ∨
      (truthy (some "T") = false ∧ truthy (some "c") = false)) ∧
    (∃ msg, chat emptyStorage "p" "m" (some "T") (some "c") sampleEnv =
      { outcome := ChatOutcome.errorResult msg none none
        state := emptyStorage, apiCall := none, saveResult := none }) ∧
    (∃ msg, chat emptyStorage "p" "m" none none sampleEnv =
      { outcome := ChatOutcome.errorResult msg none none
        state := emptyStorage, apiCall := none, saveResult := none }) :=
  ⟨Or.inl rfl,
   chat_validation_error emptyStorage "p" "m" (some "T") (some "c") sampleEnv
     (Or.inl rfl),
   chat_validation_error emptyStorage "p" "m" none none sampleEnv
     (Or.inr ⟨rfl, rfl⟩)⟩

/-- C7: a `chat` call with a `continuation_id` for which no conversation
exists (neither cached nor on disk) returns the structured
conversation-not-found error with `continuation_id = None` and
`model_used = None`, makes no external call, and leaves the storage state
untouched — no silent fallback to a new conversation. -/
theorem chat_continuation_not_found (st : Storage) (prompt model : String)
    (title continuation_id : Option String) (E : ChatEnv)
    (h1 : truthy title = false) (h2 : truthy continuation_id = true)
    (h3 : dictFind st.cache (continuation_id.getD "") = none)
    (h4 : dictFind st.files (continuation_id.getD "") = none) :
    chat st prompt model title continuation_id E =
      { outcome := ChatOutcome.errorResult
          ("Conversation " ++ continuation_id.getD "" ++
           " not found. Please start a new conversation or use a valid continuation_id.")
          none none
        state := st, apiCall := none, saveResult := none } := by
  simp [chat, h1, h2, load_conversation, h3, h4]

theorem chat_continuation_not_found_witness :
    truthy (none : Option String) = false ∧
    truthy (some "nope") = true ∧
    dictFind emptyStorage.cache "nope" = none ∧
    dictFind emptyStorage.files "nope" = none ∧
    chat emptyStorage "x" "gpt-5" none (some "nope") sampleEnv =
      { outcome := ChatOutcome.errorResult
          "Conversation nope not found. Please start a new conversation or use a valid continuation_id."
          none none
        state := emptyStorage, apiCall := none, saveResult := none } :=
  ⟨rfl, rfl, rfl, rfl,
   chat_continuation_not_found emptyStorage "x" "gpt-5" none (some "nope")
     sampleEnv rfl rfl rfl rfl⟩

/-- C4 counterexample: passing a non-empty `title` on a second
`save_conversation` for an existing conversation overwrites the stored
title (here from "A" to "B"), contradicting "never changes its title …
even when a non-empty title argument is passed"; `created` is kept. -/
theorem save_title_overwrite_counterexample :
    ((dictFind (save_conversation
        (save_conversation emptyStorage "c1" [] none (some "A") "u1" true "").2
        "c1" [] none (some "B") "u2" true "").2.files "c1").map
          ConversationData.title = some (some (Val.str "B")) ∧
     (dictFind (save_conversation
        (save_conversation emptyStorage "c1" [] none (some "A") "u1" true "").2
        "c1" [] none (some "B") "u2" true "").2.files "c1").map
          ConversationData.created = some (Val.str "u1") ∧
     some (some (Val.str "B")) ≠ some (some (Val.str "A"))) := by
  refine ⟨rfl, rfl, ?_⟩
  simp

/-- The conversation record written by a successful `save_conversation`
(the `conversation_data` dict of storage.py 62–77), named so the theorems
can exhibit it as an explicit witness; `save_eq` proves it is exactly what
`save_conversation` produces. -/
def savedRecord (st : Storage) (cid : String) (messages : List Dict)
    (mm : Option Dict) (title : Option String) (now : String) :
    ConversationData :=
  { id := cid
    created :=
      match dictFind st.files cid with
      | some ex => ex.created
      | none => Val.str now
    updated := now
    messages := messages
    title :=
      if truthy title then some (Val.str (title.getD ""))
      else match dictFind st.files cid with
        | some ex => ex.title
        | none => none
    model_metadata := if dictOptTruthy mm then mm else none }

theorem save_eq (st : Storage) (cid : String) (messages : List Dict)
    (mm : Option Dict) (title : Option String) (now env : String) :
    save_conversation st cid messages mm title now true env =
      (true,
        { files := dictInsert st.files cid
            (savedRecord st cid messages mm title now)
          cache := dictInsert st.cache cid
            (savedRecord st cid messages mm title now)
          lastConversationId := some cid
          lastModelUsed :=
            shortDisplayOf env (extract_last_model mm messages) }) := rfl

/-- C4 amended: appending further turns via `save_conversation` always
preserves `created`, and preserves `title` provided the `title` argument
of the later save is empty or absent (as `chat` guarantees on
continuations); a non-empty `title` argument overwrites the title. -/
theorem save_preserves_created_and_title (st : Storage) (cid : String)
    (messages : List Dict) (mm : Option Dict) (title : Option String)
    (now env : String) (ex : ConversationData)
    (hex : dictFind st.files cid = some ex) :
    ∃ rec,
      dictFind (save_conversation st cid messages mm title now true env).2.files
        cid = some rec ∧
      rec.created = ex.created ∧
      (truthy title = false → rec.title = ex.title) := by
  refine ⟨savedRecord st cid messages mm title now, ?_, ?_, ?_⟩
  · simp [save_eq, dictFind_dictInsert_self]
  · simp [savedRecord, hex]
  · intro ht
    simp [savedRecord, hex, ht]

theorem save_preserves_created_and_title_witness :
    dictFind (save_conversation emptyStorage "c1" [] none (some "A") "u1"
      true "").2.files "c1" =
      some { id := "c1", created := Val.str "u1", updated := "u1",
             messages := [], title := some (Val.str "A"),
             model_metadata := none } ∧
    ∃ rec,
      dictFind (save_conversation
        (save_conversation emptyStorage "c1" [] none (some "A") "u1" true "").2
        "c1" [] none none "u2" true "").2.files "c1" = some rec ∧
      rec.created = Val.str "u1" ∧
      (truthy (none : Option String) = false → rec.title = some (Val.str "A")) :=
  ⟨rfl,
   save_preserves_created_and_title
     (save_conversation emptyStorage "c1" [] none (some "A") "u1" true "").2
     "c1" [] none none "u2" ""
     { id := "c1", created := Val.str "u1", updated := "u1", messages := [],
       title := some (Val.str "A"), model_metadata := none }
     rfl⟩

/-- C6: after a successful `save_conversation`, `load_conversation`
returns the very record that was saved — both on a cache hit and on a
cold cache (cache entry dropped, record re-read from disk) — with the
given id and message sequence intact, and the caller's title when one
was supplied; persistence is lossless for these fields. -/
theorem save_load_roundtrip (st : Storage) (cid : String)
    (messages : List Dict) (mm : Option Dict) (title : Option String)
    (now env : String) :
    (save_conversation st cid messages mm title now true env).1 = true ∧
    ∃ rec,
      (load_conversation
        (save_conversation st cid messages mm title now true env).2 cid).1 =
          some rec ∧
      (load_conversation
        { (save_conversation st cid messages mm title now true env).2 with
          cache := dictErase
            (save_conversation st cid messages mm title now true env).2.cache
            cid } cid).1 = some rec ∧
      rec.id = cid ∧ rec.messages = messages ∧ rec.updated = now ∧
      (truthy title = true → rec.title = some (Val.str (title.getD ""))) := by
  constructor
  · rfl
  · refine ⟨savedRecord st cid messages mm title now, ?_, ?_, rfl, rfl, rfl, ?_⟩
    · simp [save_eq, load_conversation, dictFind_dictInsert_self]
    · simp [save_eq, load_conversation, dictFind_dictErase_self,
        dictFind_dictInsert_self]
    · intro ht
      simp [savedRecord, ht]

theorem save_load_roundtrip_witness :
    (save_conversation emptyStorage "c9"
      [[("role", Val.str "user"), ("content", Val.str "q")]]
      (some [("models_used", Val.arr [Val.str "openai/gpt-5"])])
      (some "Greeting") "w1" true "").1 = true ∧
    ∃ rec,
      (load_conversation (save_conversation emptyStorage "c9"
        [[("role", Val.str "user"), ("content", Val.str "q")]]
        (some [("models_used", Val.arr [Val.str "openai/gpt-5"])])
        (some "Greeting") "w1" true "").2 "c9").1 = some rec ∧
      (load_conversation
        { (save_conversation emptyStorage "c9"
            [[("role", Val.str "user"), ("content", Val.str "q")]]
            (some [("models_used", Val.arr [Val.str "openai/gpt-5"])])
            (some "Greeting") "w1" true "").2 with
          cache := dictErase (save_conversation emptyStorage "c9"
            [[("role", Val.str "user"), ("content", Val.str "q")]]
            (some [("models_used", Val.arr [Val.str "openai/gpt-5"])])
            (some "Greeting") "w1" true "").2.cache "c9" } "c9").1 = some rec ∧
      rec.id = "c9" ∧
      rec.messages = [[("role", Val.str "user"), ("content", Val.str "q")]] ∧
      rec.updated = "w1" ∧
      (truthy (some "Greeting") = true →
        rec.title = some (Val.str "Greeting")) :=
  save_load_roundtrip emptyStorage "c9"
    [[("role", Val.str "user"), ("content", Val.str "q")]]
    (some [("models_used", Val.arr [Val.str "openai/gpt-5"])])
    (some "Greeting") "w1" ""

/-- C8 counterexample: two successful chat turns with distinct models
("m/one" then "m/two") leave `model_metadata.models_used = ["m/two"]` —
the most recent model only, not the ordered two-element sequence the
claim requires. -/
theorem chat_model_metadata_counterexample :
    ((dictFind (chat (chat emptyStorage "p1" "m/one" (some "T") none
        ⟨"", fun s => Val.str s, "u1", "u2", "cid-1", Except.ok "r1", "u3", true⟩).state
        "p2" "m/two" none (some "cid-1")
        ⟨"", fun s => Val.str s, "v1", "v2", "cid-2", Except.ok "r2", "v3", true⟩).state.files
        "cid-1").map ConversationData.model_metadata =
      some (some [("models_used", Val.arr [Val.str "m/two"])]) ∧
     some (some [("models_used", Val.arr [Val.str "m/two"])]) ≠
       some (some [("models_used",
         Val.arr [Val.str "m/one", Val.str "m/two"])])) := by
  refine ⟨rfl, ?_⟩
  simp

/-- C8 amended: every successful chat turn overwrites the persisted
`model_metadata` wholesale with `{"models_used": [resolved_model]}` — a
singleton holding only that turn's model, regardless of what earlier
turns recorded. -/
theorem chat_overwrites_model_metadata (st : Storage) (prompt model : String)
    (title : Option String) (E : ChatEnv) (resp : String)
    (h1 : truthy title = true) (h2 : E.callResult = Except.ok resp)
    (h3 : E.diskOk = true) :
    (dictFind (chat st prompt model title none E).state.files E.newId).map
        ConversationData.model_metadata =
      some (some [("models_used",
        Val.arr [Val.str ((resolve_model E.env model).getD model)])]) := by
  simp [chat, h1, truthy_none, chatTurn, h2, h3, save_eq,
    dictFind_dictInsert_self, savedRecord, dictOptTruthy]

theorem chat_overwrites_model_metadata_witness :
    truthy (some "T") = true ∧
    sampleEnv.callResult = Except.ok "resp" ∧
    sampleEnv.diskOk = true ∧
    (dictFind (chat emptyStorage "p" "m/x" (some "T") none
        sampleEnv).state.files sampleEnv.newId).map
        ConversationData.model_metadata =
      some (some [("models_used",
        Val.arr [Val.str ((resolve_model sampleEnv.env "m/x").getD "m/x")])]) :=
  ⟨rfl, rfl, rfl,
   chat_overwrites_model_metadata emptyStorage "p" "m/x" (some "T")
     sampleEnv "resp" rfl rfl rfl⟩

/-- The conversation whose continuation exhibits the failed-call cache
mutation (one stored user/assistant-less turn of a single message). -/
def contData : ConversationData :=
  ⟨"c", Val.str "t0", "t0",
   [[("role", Val.str "user"), ("content", Val.str "q")]],
   some (Val.str "T"), none⟩

def contStorage : Storage := ⟨[("c", contData)], [("c", contData)], none, none⟩

def failCallEnv : ChatEnv :=
  ⟨"", fun s => Val.str s, "t1", "t2", "id-1", Except.error "boom", "t3", true⟩

/-- A `ChatEnv` whose external call succeeds ("resp") but whose save-side
file I/O fails. -/
def saveFailEnv : ChatEnv :=
  ⟨"", fun s => Val.str s, "t1", "t2", "id-1", Except.ok "resp", "t3", false⟩

/-- C9: for every chat turn that makes its external call — a new
conversation (`title` supplied) or a continuation of an existing one
(`continuation_id` supplied and found) — when the call succeeds but the
save's file I/O fails, `save_conversation` returns `false` (it does not
raise) and `chat` still returns the normal success result: wrapped
content, the turn's continuation id and the display model name;
persistence failure neither blocks nor erases the model response. -/
theorem chat_save_failure_nonfatal (st : Storage) (prompt model : String)
    (title continuation_id : Option String) (E : ChatEnv) (resp cid : String)
    (h2 : E.callResult = Except.ok resp) (h3 : E.diskOk = false)
    (hpath :
      (truthy title = true ∧ truthy continuation_id = false ∧ cid = E.newId) ∨
      (truthy title = false ∧ truthy continuation_id = true ∧
       cid = continuation_id.getD "" ∧
       ∃ data, (load_conversation st (continuation_id.getD "")).1 =
         some data)) :
    (chat st prompt model title continuation_id E).saveResult = some false ∧
    (chat st prompt model title continuation_id E).outcome =
      ChatOutcome.success
        (resp ++ get_response_wrapper
          ((get_short_name E.env ((resolve_model E.env model).getD model)).getD
            ((resolve_model E.env model).getD model)))
        cid
        ((get_short_name E.env ((resolve_model E.env model).getD model)).getD
          ((resolve_model E.env model).getD model)) := by
  rcases hpath with ⟨h1, hc, rfl⟩ | ⟨h1, hc, rfl, data, hdata⟩
  · constructor <;>
      simp [chat, h1, hc, chatTurn, h2, save_conversation, h3]
  · rcases hLC : load_conversation st (continuation_id.getD "") with ⟨od, st1⟩
    rw [hLC] at hdata
    simp only at hdata
    subst hdata
    constructor <;>
      simp [chat, h1, hc, hLC, chatTurn, h2, save_conversation, h3]

theorem chat_save_failure_nonfatal_witness :
    saveFailEnv.callResult = Except.ok "resp" ∧
    saveFailEnv.diskOk = false ∧
    ((chat emptyStorage "p" "m/x" (some "T") none saveFailEnv).saveResult =
        some false ∧
     (chat emptyStorage "p" "m/x" (some "T") none saveFailEnv).outcome =
       ChatOutcome.success
         ("resp" ++ get_response_wrapper
           ((get_short_name "" ((resolve_model "" "m/x").getD "m/x")).getD
             ((resolve_model "" "m/x").getD "m/x")))
         "id-1"
         ((get_short_name "" ((resolve_model "" "m/x").getD "m/x")).getD
           ((resolve_model "" "m/x").getD "m/x"))) ∧
    ((chat contStorage "again" "m/x" none (some "c") saveFailEnv).saveResult =
        some false ∧
     (chat contStorage "again" "m/x" none (some "c") saveFailEnv).outcome =
       ChatOutcome.success
         ("resp" ++ get_response_wrapper
           ((get_short_name "" ((resolve_model "" "m/x").getD "m/x")).getD
             ((resolve_model "" "m/x").getD "m/x")))
         "c"
         ((get_short_name "" ((resolve_model "" "m/x").getD "m/x")).getD
           ((resolve_model "" "m/x").getD "m/x"))) :=
  ⟨rfl, rfl,
   chat_save_failure_nonfatal emptyStorage "p" "m/x" (some "T") none
     saveFailEnv "resp" "id-1" rfl rfl (Or.inl ⟨rfl, rfl, rfl⟩),
   chat_save_failure_nonfatal contStorage "again" "m/x" none (some "c")
     saveFailEnv "resp" "c" rfl rfl
     (Or.inr ⟨rfl, rfl, rfl, ⟨contData, rfl⟩⟩)⟩

/-- C3: continuing conversation "c" (1 stored message) with an external
call that fails leaves the conversation *file* unchanged, but the cached
message list has grown to 2 — the un-paired user message was appended to
the cached record through the shared list object before the call, so the
cached conversation state IS mutated by the failed turn, contradicting
the claim (and the spec's stated intent of an all-or-nothing turn). -/
theorem chat_failed_call_mutates_cache :
    (chat contStorage "again" "m/x" none (some "c") failCallEnv).outcome =
      ChatOutcome.callFailed "boom" ∧
    (chat contStorage "again" "m/x" none (some "c") failCallEnv).state.files =
      contStorage.files ∧
    (dictFind (chat contStorage "again" "m/x" none (some "c")
        failCallEnv).state.cache "c").map (fun d => d.messages.length) =
      some 2 ∧
    (dictFind contStorage.cache "c").map (fun d => d.messages.length) =
      some 1 ∧
    (some 2 : Option Nat) ≠ some 1 :=
  ⟨rfl, rfl, rfl, rfl, by decide⟩

/-- Both branches of the external call leave the same `apiCall` model
component: the resolved model `chatTurn` was given. -/
theorem chatTurn_apiCall_model (st : Storage) (cid : String) (isCont : Bool)
    (messages0 : List Dict) (rm prompt : String) (title : Option String)
    (E : ChatEnv) :
    ((chatTurn st cid isCont messages0 rm prompt title E).apiCall).map
      Prod.snd = some rm := by
  unfold chatTurn
  cases hc : E.callResult <;> simp

/-- C10: a model name containing `'/'` is returned verbatim by
`resolve_model` under every allow-list environment — the registry and
`OPENROUTER_ALLOWED_MODELS` are never consulted — and whenever a `chat`
call with that name reaches the external call, the call targets exactly
that name. -/
theorem resolve_slash_bypasses_allowlist (env model : String) (st : Storage)
    (prompt : String) (title continuation_id : Option String) (E : ChatEnv)
    (pm : String)
    (h1 : model.data.contains '/' = true)
    (h2 : ((chat st prompt model title continuation_id E).apiCall).map
      Prod.snd = some pm) :
    resolve_model env model = some model ∧ pm = model := by
  have hres : ∀ e : String, resolve_model e model = some model := by
    intro e
    have hne : model.isEmpty = false := by
      cases hm : model.isEmpty
      · rfl
      · exfalso
        have hmod : model = "" := (String.isEmpty_iff model).mp hm
        rw [hmod] at h1
        exact absurd h1 (by decide)
    have h1' : '/' ∈ model.data := by simpa using h1
    simp [resolve_model, hne, h1']
  have hRM : (resolve_model E.env model).getD model = model := by
    rw [hres E.env]; rfl
  refine ⟨hres env, ?_⟩
  simp only [chat, hRM] at h2
  split at h2
  · simp at h2
  · split at h2
    · simp at h2
    · split at h2
      · split at h2
        · rw [chatTurn_apiCall_model] at h2
          exact (Option.some.injEq _ _ ▸ h2).symm
        · simp at h2
      · rw [chatTurn_apiCall_model] at h2
        exact (Option.some.injEq _ _ ▸ h2).symm

theorem resolve_slash_bypasses_allowlist_witness :
    ("evil/model".data.contains '/' = true) ∧
    (((chat emptyStorage "p" "evil/model" (some "T") none
        ⟨"o3,sonnet", fun s => Val.str s, "t1", "t2", "id-1",
          Except.ok "r", "t3", true⟩).apiCall).map Prod.snd =
      some "evil/model") ∧
    (resolve_model "o3,sonnet" "evil/model" = some "evil/model" ∧
      "evil/model" = "evil/model") :=
  ⟨rfl, rfl,
   resolve_slash_bypasses_allowlist "o3,sonnet" "evil/model" emptyStorage
     "p" (some "T") none
     ⟨"o3,sonnet", fun s => Val.str s, "t1", "t2", "id-1",
       Except.ok "r", "t3", true⟩
     "evil/model" rfl rfl⟩

/-- Every message `get_messages_for_api` produces has exactly the keys
`role` and `content`, in that order. -/
theorem get_messages_for_api_keys (messages : List Dict) (msg : Dict)
    (hm : msg ∈ get_messages_for_api messages) :
    msg.map Prod.fst = ["role", "content"] := by
  rcases List.mem_map.mp hm with ⟨m0, _, rfl⟩
  rfl

/-- Every message in the payload `chatTurn` hands to the external call has
exactly the keys `role` and `content`. -/
theorem chatTurn_payload_keys (st : Storage) (cid : String) (isCont : Bool)
    (messages0 : List Dict) (rm prompt : String) (title : Option String)
    (E : ChatEnv) (msg : Dict)
    (hm : msg ∈ apiPayload (chatTurn st cid isCont messages0 rm prompt title E)) :
    msg.map Prod.fst = ["role", "content"] := by
  unfold chatTurn at hm
  cases hc : E.callResult with
  | error e =>
    rw [hc] at hm
    simp only [apiPayload] at hm
    rcases List.mem_cons.mp hm with rfl | hm
    · rfl
    · exact get_messages_for_api_keys _ _ hm
  | ok resp =>
    rw [hc] at hm
    simp only [apiPayload] at hm
    rcases List.mem_cons.mp hm with rfl | hm
    · rfl
    · exact get_messages_for_api_keys _ _ hm

/-- C2: every message of the payload `chat` sends to the external
model-call collaborator carries exactly the two keys `role` and
`content`; in particular none of the persisted bookkeeping keys
(`timestamp`, `target_model`, `model`, `model_used`) ever appears in an
outbound message. -/
theorem chat_payload_role_content_only (st : Storage) (prompt model : String)
    (title continuation_id : Option String) (E : ChatEnv) (msg : Dict)
    (hm : msg ∈ apiPayload (chat st prompt model title continuation_id E)) :
    msg.map Prod.fst = ["role", "content"] ∧
    "timestamp" ∉ msg.map Prod.fst ∧
    "target_model" ∉ msg.map Prod.fst ∧
    "model" ∉ msg.map Prod.fst ∧
    "model_used" ∉ msg.map Prod.fst := by
  have hkeys : msg.map Prod.fst = ["role", "content"] := by
    simp only [chat] at hm
    split at hm
    · simp [apiPayload] at hm
    · split at hm
      · simp [apiPayload] at hm
      · split at hm
        · split at hm
          · exact chatTurn_payload_keys _ _ _ _ _ _ _ _ _ hm
          · simp [apiPayload] at hm
        · exact chatTurn_payload_keys _ _ _ _ _ _ _ _ _ hm
  refine ⟨hkeys, ?_, ?_, ?_, ?_⟩ <;> rw [hkeys] <;> decide

theorem chat_payload_role_content_only_witness :
    ([("role", Val.str "system"),
      ("content", Val.str (get_llm_system_prompt "openai/gpt-5"))] ∈
        apiPayload (chat emptyStorage "hello" "openai/gpt-5" (some "T") none
          sampleEnv)) ∧
    ([("role", Val.str "system"),
      ("content", Val.str (get_llm_system_prompt "openai/gpt-5"))].map
        Prod.fst = ["role", "content"] ∧
     "timestamp" ∉ [("role", Val.str "system"),
       ("content", Val.str (get_llm_system_prompt "openai/gpt-5"))].map
         Prod.fst ∧
     "target_model" ∉ [("role", Val.str "system"),
       ("content", Val.str (get_llm_system_prompt "openai/gpt-5"))].map
         Prod.fst ∧
     "model" ∉ [("role", Val.str "system"),
       ("content", Val.str (get_llm_system_prompt "openai/gpt-5"))].map
         Prod.fst ∧
     "model_used" ∉ [("role", Val.str "system"),
       ("content", Val.str (get_llm_system_prompt "openai/gpt-5"))].map
         Prod.fst) :=
  ⟨List.Mem.head _,
   chat_payload_role_content_only emptyStorage "hello" "openai/gpt-5"
     (some "T") none sampleEnv _ (List.Mem.head _)⟩

/-! ## Sorting lemmas for `list_recent_conversations` -/

theorem orderedInsert_congr_key {α β γ : Type} [LinearOrder β] [LinearOrder γ]
    (k1 : α → β) (k2 : α → γ) (x : α) :
    ∀ L : List α, (∀ b ∈ L, (k1 b ≤ k1 x ↔ k2 b ≤ k2 x)) →
      L.orderedInsert (fun a b => k1 b ≤ k1 a) x =
      L.orderedInsert (fun a b => k2 b ≤ k2 a) x := by
  intro L
  induction L with
  | nil => intro _; rfl
  | cons y ys ih =>
    intro h
    by_cases hy : k1 y ≤ k1 x
    · have hy2 : k2 y ≤ k2 x := (h y (List.mem_cons_self y ys)).mp hy
      simp only [List.orderedInsert, if_pos hy, if_pos hy2]
    · have hy2 : ¬ k2 y ≤ k2 x := fun hc =>
        hy ((h y (List.mem_cons_self y ys)).mpr hc)
      simp only [List.orderedInsert, if_neg hy, if_neg hy2]
      rw [ih (fun b hb => h b (List.mem_cons_of_mem y hb))]

theorem mem_sortDescBy {α β : Type} [LinearOrder β] (key : α → β)
    (l : List α) (a : α) : a ∈ sortDescBy key l ↔ a ∈ l :=
  (List.perm_insertionSort _ l).mem_iff

theorem sortDescBy_congr_key {α β γ : Type} [LinearOrder β] [LinearOrder γ]
    (k1 : α → β) (k2 : α → γ) :
    ∀ l : List α, (∀ a ∈ l, ∀ b ∈ l, (k1 a ≤ k1 b ↔ k2 a ≤ k2 b)) →
      sortDescBy k1 l = sortDescBy k2 l := by
  intro l
  induction l with
  | nil => intro _; rfl
  | cons x xs ih =>
    intro h
    have ih' := ih (fun a ha b hb =>
      h a (List.mem_cons_of_mem x ha) b (List.mem_cons_of_mem x hb))
    show (sortDescBy k1 xs).orderedInsert (fun a b => k1 b ≤ k1 a) x =
      (sortDescBy k2 xs).orderedInsert (fun a b => k2 b ≤ k2 a) x
    rw [ih']
    exact orderedInsert_congr_key k1 k2 x (sortDescBy k2 xs) (fun b hb =>
      h b (List.mem_cons_of_mem x ((mem_sortDescBy k2 xs b).mp hb))
        x (List.mem_cons_self x xs))

theorem orderedInsert_map {α α' β : Type} [LinearOrder β] (key : α' → β)
    (f : α → α') (x : α) :
    ∀ L : List α, (L.map f).orderedInsert (fun a b => key b ≤ key a) (f x) =
      (L.orderedInsert (fun a b => key (f b) ≤ key (f a)) x).map f := by
  intro L
  induction L with
  | nil => rfl
  | cons y ys ih =>
    by_cases hy : key (f y) ≤ key (f x)
    · simp only [List.map_cons, List.orderedInsert, if_pos hy, List.map_cons]
    · simp only [List.map_cons, List.orderedInsert, if_neg hy, List.map_cons,
        ih]

theorem sortDescBy_map {α α' β : Type} [LinearOrder β] (key : α' → β)
    (f : α → α') :
    ∀ l : List α, sortDescBy key (l.map f) =
      (sortDescBy (fun a => key (f a)) l).map f := by
  intro l
  induction l with
  | nil => rfl
  | cons x xs ih =>
    show (sortDescBy key (xs.map f)).orderedInsert
        (fun a b => key b ≤ key a) (f x) = _
    rw [ih]
    exact orderedInsert_map key f x (sortDescBy (fun a => key (f a)) xs)

theorem sortDescBy_sorted {α β : Type} [LinearOrder β] (key : α → β)
    (l : List α) :
    (sortDescBy key l).Pairwise (fun a b => key b ≤ key a) := by
  haveI : IsTotal α (fun a b => key b ≤ key a) :=
    ⟨fun a b => le_total (key b) (key a)⟩
  haveI : IsTrans α (fun a b => key b ≤ key a) :=
    ⟨fun _ _ _ hab hbc => le_trans hbc hab⟩
  exact List.sorted_insertionSort _ l

theorem sortDescBy_take_sorted {α β : Type} [LinearOrder β] (key : α → β)
    (l : List α) (n : Nat) :
    sortDescBy key ((sortDescBy key l).take n) = (sortDescBy key l).take n :=
  List.Sorted.insertionSort_eq
    (List.Pairwise.sublist (List.take_sublist n _) (sortDescBy_sorted key l))

/-- Two conversation files whose filesystem mtimes (1 and 2) are ordered
oppositely to their `updated` fields ("2" and "1"). -/
def skewA : ConversationData :=
  ⟨"A", Val.str "c", "2", [], some (Val.str "TA"), none⟩

def skewB : ConversationData :=
  ⟨"B", Val.str "c", "1", [], some (Val.str "TB"), none⟩

/-- C5 counterexample: with mtime order opposite to `updated` order,
`list_recent_conversations` with limit 1 returns conversation "B"
(largest mtime) although "A" is the most recent by `updated` — the mtime
pre-filter drops the true top-k before the final re-sort can correct
anything, so the result is not "the k most recent by `updated`
regardless of mtime skew". -/
theorem list_recent_mtime_skew_counterexample :
    (list_recent_conversations "" [(1, skewA), (2, skewB)] 1).map
        (fun s => s.id) = ["B"] ∧
    (kMostRecentByUpdated "" [(1, skewA), (2, skewB)] 1).map
        (fun s => s.id) = ["A"] ∧
    (["B"] : List String) ≠ ["A"] ∧
    skewB.updated < skewA.updated := by
  refine ⟨rfl, ?_, by decide, ?_⟩
  · have hle : ("1" : String) ≤ "2" := by
      rw [String.le_iff_toList_le]; decide
    simp [kMostRecentByUpdated, sortDescBy, List.insertionSort,
      List.orderedInsert, summarize, skewA, skewB, extract_last_model,
      shortDisplayOf, valTruthy, hle]
  · show ("1" : String) < "2"
    rw [String.lt_iff_toList_lt]; decide

/-- C5 amended: when the conversations have pairwise-distinct `updated`
timestamps AND the filesystem mtime order agrees with the `updated`
order, `list_recent_conversations(k)` returns exactly the `k` most recent
conversation summaries ordered by `updated` descending; without that
mtime consistency the mtime pre-filter can drop a true top-k element
(see the counterexample). -/
theorem list_recent_exact_when_mtime_consistent (env : String)
    (dirFiles : List (Nat × ConversationData)) (limit : Nat)
    (_hdist : dirFiles.Pairwise (fun p q => p.2.updated ≠ q.2.updated))
    (hag : ∀ p ∈ dirFiles, ∀ q ∈ dirFiles,
      (p.2.updated ≤ q.2.updated ↔ p.1 ≤ q.1)) :
    list_recent_conversations env dirFiles limit =
      kMostRecentByUpdated env dirFiles limit := by
  show sortDescBy (fun s : ConvSummary => s.updated)
      ((List.take limit (sortDescBy
          (fun p : Nat × ConversationData => p.1) dirFiles)).map
        (fun p : Nat × ConversationData => summarize env p.2)) =
    List.take limit (sortDescBy (fun s : ConvSummary => s.updated)
      (dirFiles.map (fun p : Nat × ConversationData => summarize env p.2)))
  have h1 : sortDescBy (fun p : Nat × ConversationData => p.1) dirFiles =
      sortDescBy (fun p : Nat × ConversationData =>
        (summarize env p.2).updated) dirFiles :=
    sortDescBy_congr_key _ _ dirFiles (fun a ha b hb => (hag a ha b hb).symm)
  rw [h1]
  rw [List.map_take (fun p : Nat × ConversationData => summarize env p.2)]
  rw [← sortDescBy_map (fun s : ConvSummary => s.updated)
      (fun p : Nat × ConversationData => summarize env p.2) dirFiles]
  exact sortDescBy_take_sorted _ _ limit

/-- A single conversation file, enough to instantiate the consistency
hypotheses of the amended C5 theorem non-vacuously. -/
def soloFile : ConversationData :=
  ⟨"S", Val.str "c", "9", [], some (Val.str "TS"), none⟩

theorem list_recent_exact_when_mtime_consistent_witness :
    ([(5, soloFile)].Pairwise
      (fun p q : Nat × ConversationData => p.2.updated ≠ q.2.updated)) ∧
    (∀ p ∈ [(5, soloFile)], ∀ q ∈ [(5, soloFile)],
      ((p : Nat × ConversationData).2.updated ≤ q.2.updated ↔ p.1 ≤ q.1)) ∧
    list_recent_conversations "" [(5, soloFile)] 1 =
      kMostRecentByUpdated "" [(5, soloFile)] 1 := by
  have hd : [(5, soloFile)].Pairwise
      (fun p q : Nat × ConversationData => p.2.updated ≠ q.2.updated) := by
    simp
  have ha : ∀ p ∈ [(5, soloFile)], ∀ q ∈ [(5, soloFile)],
      ((p : Nat × ConversationData).2.updated ≤ q.2.updated ↔ p.1 ≤ q.1) := by
    intro p hp q hq
    rw [List.mem_singleton] at hp hq
    subst hp; subst hq
    simp
  exact ⟨hd, ha,
    list_recent_exact_when_mtime_consistent "" [(5, soloFile)] 1 hd ha⟩

end MuMcp
